import Mathlib

/-!
Shallow embedding of `src/main.py` (a FastAPI service republishing fund NAV
and market capital-flow data) and proofs about its normalization and
handler logic.

Python dynamic values are modelled by `PyVal` (the shapes that actually flow
through the relevant code: `None`, `str`, `float`).  Python floats are
modelled exactly: a finite float is carried as the rational its decimal text
denotes (every concrete value in the claims round-trips identically), plus
`nan` and signed infinity; binary rounding of doubles is not modelled, which
is faithful for every comparison the claims make.  `float(<str>)` is
modelled by `pyParseFloat`: optional surrounding whitespace, optional sign,
case-insensitive "nan"/"inf"/"infinity", or a decimal literal with optional
fraction and exponent.  (CPython extras not modelled: underscores between
digits and non-ASCII digit characters.)
-/

namespace FundApi

/-- Model of a Python float value: NaN, signed infinity, or a finite value
carried as an exact rational. -/
inductive PyFloat where
  | nan : PyFloat
  | inf : Bool → PyFloat
  | finite : ℚ → PyFloat
deriving DecidableEq, Repr

/-- Model of the Python values that flow through `main.py`'s normalizers:
`None`, strings, and floats. -/
inductive PyVal where
  | none : PyVal
  | str : String → PyVal
  | float : PyFloat → PyVal
deriving DecidableEq, Repr

/-- Digit list to natural number, most significant first. -/
def digitsToNat (l : List Char) : Nat :=
  l.foldl (fun n c => 10 * n + (c.toNat - 48)) 0

/-- Exponent tail of a Python float literal: either empty (exponent 0) or
an 'e'/'E' followed by an optionally signed digit string. -/
def parseExpTail : List Char → Option ℤ
  | [] => some 0
  | c :: rest =>
    if c = 'e' ∨ c = 'E' then
      match rest with
      | '+' :: ds =>
          if ds ≠ [] ∧ ds.all Char.isDigit then some (digitsToNat ds) else Option.none
      | '-' :: ds =>
          if ds ≠ [] ∧ ds.all Char.isDigit then some (-(digitsToNat ds : ℤ)) else Option.none
      | ds =>
          if ds ≠ [] ∧ ds.all Char.isDigit then some (digitsToNat ds) else Option.none
    else Option.none

/-- Exact rational denoted by integer digits `ip`, fraction digits `fp` and
decimal exponent `e`: the mantissa `ip ++ fp` read as an integer, times ten
to the `e - |fp|`.  Built with `Rat.divInt` over integer arithmetic. -/
def ratOfDigits (ip fp : List Char) (e : ℤ) : ℚ :=
  let mant : ℤ := (digitsToNat (ip ++ fp) : ℤ)
  let ex : ℤ := e - (fp.length : ℤ)
  Rat.divInt (mant * (10 : ℤ) ^ ex.toNat) ((10 : ℤ) ^ (-ex).toNat)

/-- Decimal part of a Python float literal (after sign removal):
digits, optional '.' and fraction digits (at least one digit overall),
optional exponent tail.  Returns the exact rational denoted. -/
def parseDecimalCore (cs : List Char) : Option ℚ :=
  let ip := cs.takeWhile Char.isDigit
  let r1 := cs.dropWhile Char.isDigit
  match r1 with
  | '.' :: r2 =>
    let fp := r2.takeWhile Char.isDigit
    let r3 := r2.dropWhile Char.isDigit
    if ip.isEmpty && fp.isEmpty then Option.none
    else (parseExpTail r3).map (ratOfDigits ip fp)
  | _ =>
    if ip.isEmpty then Option.none
    else (parseExpTail r1).map (ratOfDigits ip [])

/-- Strip leading and trailing whitespace from a character list. -/
def trimChars (cs : List Char) : List Char :=
  ((cs.dropWhile Char.isWhitespace).reverse.dropWhile Char.isWhitespace).reverse

/-- Model of Python `str.strip()` with no argument: drop surrounding
whitespace. -/
def pyStrip (s : String) : String :=
  String.mk (trimChars s.toList)

/-- Test for `value.endswith(chr(37))`, the percent-suffix check of
`safe_float`: the last character is '%'. -/
def endswithPercent (s : String) : Bool :=
  s.toList.getLast? == some '%'

/-- Test for the Python containment `chr(20159) in val`: some character of
the string is 亿. -/
def containsYi (s : String) : Bool :=
  s.toList.any (fun c => c == '亿')

/-- Model of CPython `float(s)` on a string: strip whitespace, take an
optional sign, then accept case-insensitive nan/inf/infinity or a decimal
literal; `Option.none` models a raised `ValueError`. -/
def pyParseFloat (s : String) : Option PyFloat :=
  let cs := trimChars s.toList
  let signed : Bool × List Char :=
    match cs with
    | '+' :: r => (false, r)
    | '-' :: r => (true, r)
    | r => (false, r)
  let neg := signed.1
  let body := signed.2
  let lower := body.map Char.toLower
  if lower = "nan".toList then some PyFloat.nan
  else if lower = "inf".toList ∨ lower = "infinity".toList then some (PyFloat.inf neg)
  else (parseDecimalCore body).map (fun q => PyFloat.finite (if neg then -q else q))

/-- Least power of ten cleared by the denominator, searched up to 40
(every float produced by parsing a decimal literal has such a power). -/
def decScale (q : ℚ) : Option Nat :=
  (List.range 41).find? (fun k => (10 : ℕ) ^ k % q.den == 0)

/-- Decimal rendering of a finite float, as CPython `str` renders floats of
moderate magnitude ("7.0", "12.5"); scientific-notation output for extreme
magnitudes is not modelled (no claim depends on it). -/
def floatDecRepr (q : ℚ) : String :=
  match decScale q with
  | Option.none => toString q.num ++ "/" ++ toString q.den
  | some k =>
    let n : ℤ := q.num * (((10 : ℕ) ^ k / q.den : ℕ) : ℤ)
    let sgn : List Char := if n < 0 then ['-'] else []
    let ds0 := Nat.toDigits 10 n.natAbs
    let ds := if ds0.length ≤ k then List.replicate (k + 1 - ds0.length) '0' ++ ds0 else ds0
    if k = 0 then String.mk (sgn ++ ds ++ ['.', '0'])
    else String.mk (sgn ++ ds.take (ds.length - k) ++ ['.'] ++ ds.drop (ds.length - k))

/-- Model of Python `str(-)` on the values `PyVal` covers. -/
def pyStr : PyVal → String
  | PyVal.none => "None"
  | PyVal.str s => s
  | PyVal.float PyFloat.nan => "nan"
  | PyVal.float (PyFloat.inf true) => "-inf"
  | PyVal.float (PyFloat.inf false) => "inf"
  | PyVal.float (PyFloat.finite q) => floatDecRepr q

/-- Model of Python truthiness on `PyVal`. -/
def pyTruthy : PyVal → Bool
  | PyVal.none => false
  | PyVal.str s => !(s == "")
  | PyVal.float (PyFloat.finite q) => !(q == 0)
  | PyVal.float _ => true

/-- Model of a Python `a or b` expression. -/
def pyOr (a b : PyVal) : PyVal :=
  if pyTruthy a then a else b

/-- A pandas row (`df.iloc[0]` result): an association of column names to
values, looked up in order. -/
structure Series where
  entries : List (String × PyVal)
deriving DecidableEq, Repr

/-- Model of `series.get(key, default)`: the value at `key`, or `default` when the
key is absent. -/
def Series.get (s : Series) (key : String) (default : PyVal) : PyVal :=
  match s.entries.lookup key with
  | some v => v
  | Option.none => default

/-- Model of `pd.isna(val)` on the values `PyVal` covers: true for `None` and float
NaN, false for strings and other floats. -/
def pdIsna : PyVal → Bool
  | PyVal.none => true
  | PyVal.float PyFloat.nan => true
  | _ => false

/-- The membership test `val in ["-", "", "None", None]` from
`safe_get_value` (`src/main.py` line 18); Python `==` never equates values
of these distinct types, so it is an exact-shape check. -/
def isSentinel (v : PyVal) : Bool :=
  v == PyVal.str "-" || v == PyVal.str "" || v == PyVal.str "None" || v == PyVal.none

/-- Model of `safe_get_value(series, key, default)` (`src/main.py` lines 15-22):
look the key up with `default` as fallback, return `default` for NaN/None
and the listed sentinel strings, otherwise `str(val).strip()`.  The
`try/except` is vacuous here: none of the modelled operations raise. -/
def safe_get_value (series : Series) (key : String) (default : PyVal) : PyVal :=
  let val := series.get key default
  if pdIsna val || isSentinel val then default
  else PyVal.str (pyStrip (pyStr val))

/-- Model of `value.rstrip` with pattern percent: drop every trailing '%' character. -/
def rstripPercent (s : String) : String :=
  String.mk (s.toList.reverse.dropWhile (fun c => c == '%')).reverse

/-- Model of `safe_float(value, default)` (`src/main.py` lines 24-32): `None` gives
`default`; a string ending in '%' is parsed with the trailing percent signs
stripped; otherwise `float(value)`; a parse failure (`ValueError`) gives
`default`; a float is returned unchanged. -/
def safe_float (value : PyVal) (default : PyVal) : PyVal :=
  match value with
  | PyVal.none => default
  | PyVal.str s =>
    if endswithPercent s then
      match pyParseFloat (rstripPercent s) with
      | some f => PyVal.float f
      | Option.none => default
    else
      match pyParseFloat s with
      | some f => PyVal.float f
      | Option.none => default
  | PyVal.float f => PyVal.float f

/-- Model of the call replacing 亿 by the empty string: with a one-character pattern and empty
replacement this removes every occurrence of the character. -/
def replace_yi (s : String) : String :=
  String.mk (s.toList.filter (fun c => !(c == '亿')))

/-- Model of `extract_field(name)` (`src/main.py` lines 150-158), the closure over
the resolved market row: normalize via `safe_get_value`; when the result is
truthy and contains '亿', try `float(val.replace('亿',''))`, returning the
string itself when that parse fails; otherwise return the normalized value
unchanged. -/
def extract_field (data : Series) (name : String) : PyVal :=
  let val := safe_get_value data name PyVal.none
  match val with
  | PyVal.str s =>
    if !(s == "") && containsYi s then
      match pyParseFloat (replace_yi s) with
      | some f => PyVal.float f
      | Option.none => PyVal.str s
    else PyVal.str s
  | v => v

/-- Outcome of the upstream AKShare call inside a handler's `try` block:
either the fetched table (a list of rows) or a raised non-HTTP exception
carrying its message text. -/
inductive Fetched (α : Type) where
  | ok : α → Fetched α
  | exc : String → Fetched α
deriving DecidableEq, Repr

/-- Body of the `/fund/single` 200 response (`src/main.py` lines 77-101),
field for field. -/
structure FundData where
  fund_code : PyVal
  fund_name : PyVal
  fund_type : PyVal
  establishment_date : PyVal
  company : PyVal
  manager : PyVal
  tracking_index : PyVal
  unit_nav : PyVal
  accum_nav : PyVal
  daily_return_pct : PyVal
  query_date : PyVal
  subscription_fee : PyVal
  redemption_fee : PyVal
  risk_level : PyVal
  min_purchase_amount : PyVal
deriving DecidableEq, Repr

/-- Body of the `/market/flow` 200 response (`src/main.py` lines 160-171),
field for field. -/
structure MarketFlowData where
  market : String
  main_net_inflow : PyVal
  retail_net_inflow : PyVal
  big_order_net_inflow : PyVal
  small_order_net_inflow : PyVal
  main_net_share : PyVal
  update_time : PyVal
deriving DecidableEq, Repr

/-- What a handler sends to the caller: a 200 envelope with its data, or an
`HTTPException` with status and detail. -/
inductive Resp where
  | fundOk : FundData → Resp
  | marketOk : MarketFlowData → Resp
  | httpError : Nat → String → Resp
deriving DecidableEq, Repr

/-- One handler invocation: the response, the server-side log lines the
handler printed, and how many upstream fetches it performed. -/
structure HandlerResult where
  resp : Resp
  log : List String
  upstreamCalls : Nat
deriving DecidableEq, Repr

/-- The `[ERROR]` line printed by the `/fund/single` except-clause
(`src/main.py` line 106). -/
def errlog_fund (code msg : String) : String :=
  "[ERROR] Fund " ++ code ++ " query failed: " ++ msg

/-- Handler of `GET /fund/single` (`src/main.py` lines 35-110).  The API-key
check precedes the `try` block; inside it, an empty table raises 404, an
unparseable unit NAV raises 404, `except HTTPException: raise` passes those
through, and any other exception becomes a 500 with a fixed detail.  The
upstream call is abstracted as the `fetch` argument; `fund_code` arrives
already validated by FastAPI's `^\d{6}$` query regex. -/
def get_single_fund (fund_code api_key expected : String)
    (fetch : Fetched (List Series)) : HandlerResult :=
  if api_key ≠ expected then
    ⟨Resp.httpError 403 "Invalid API Key", [], 0⟩
  else
    match fetch with
    | Fetched.exc msg =>
      ⟨Resp.httpError 500 "数据查询失败，请稍后再试", [errlog_fund fund_code msg], 1⟩
    | Fetched.ok df =>
      match df with
      | [] => ⟨Resp.httpError 404 "基金代码不存在或暂无数据", [], 1⟩
      | latest :: _ =>
        let unit_nav := safe_float (safe_get_value latest "单位净值" PyVal.none) PyVal.none
        let accum_nav := safe_float (safe_get_value latest "累计净值" PyVal.none) PyVal.none
        let daily_return := safe_float (safe_get_value latest "日增长率" PyVal.none) PyVal.none
        if unit_nav = PyVal.none then
          ⟨Resp.httpError 404 "暂无净值数据", [], 1⟩
        else
          ⟨Resp.fundOk
            ⟨PyVal.str fund_code,
             safe_get_value latest "基金简称" (PyVal.str ("未知基金(" ++ fund_code ++ ")")),
             safe_get_value latest "基金类型" PyVal.none,
             safe_get_value latest "成立日期" PyVal.none,
             safe_get_value latest "基金管理人" PyVal.none,
             safe_get_value latest "基金经理" PyVal.none,
             safe_get_value latest "跟踪标的" PyVal.none,
             unit_nav,
             accum_nav,
             daily_return,
             safe_get_value latest "净值日期" PyVal.none,
             safe_get_value latest "申购费率" PyVal.none,
             safe_get_value latest "赎回费率" PyVal.none,
             safe_get_value latest "风险等级" PyVal.none,
             safe_float (safe_get_value latest "最低申购金额(元)" PyVal.none)
               (PyVal.float (PyFloat.finite 0))⟩,
           [], 1⟩

/-- Canonical category label per requested market (`src/main.py` lines
126-147: "sh" → 沪市, "sz" → 深市, anything else — the enum only also
admits "all" — → 沪深两市). -/
def market_label (market : String) : String :=
  if market == "sh" then "沪市" else if market == "sz" then "深市" else "沪深两市"

/-- The 404 detail per requested market (`src/main.py` lines 131/138/145). -/
def market_unavailable_detail (market : String) : String :=
  if market == "sh" then "沪市数据暂不可用"
  else if market == "sz" then "深市数据暂不可用"
  else "沪深两市数据暂不可用"

/-- Model of the filter selecting rows whose 板块 cell equals the label: the rows whose 板块 cell equals the label.
Rows are compared cell-wise; presence of the 板块 column is a hypothesis of
the theorems that use this (a wholly missing column would raise `KeyError`
in pandas, landing in the generic except-clause). -/
def marketRows (df : List Series) (label : String) : List Series :=
  df.filter (fun r => r.entries.lookup "板块" == some (PyVal.str label))

/-- The `[ERROR]` line printed by the `/market/flow` except-clause
(`src/main.py` line 176). -/
def errlog_market (msg : String) : String :=
  "[ERROR] Market flow query failed: " ++ msg

/-- Handler of `GET /market/flow` (`src/main.py` lines 113-180).  API-key
check first; then the single upstream fetch; the first row whose 板块 cell
equals the canonical label is used (`.iloc[0]`), a missing row raises 404;
the response fields are built by `extract_field` and `safe_float`;
`update_time` is `safe_get_value(data,"日期") or safe_get_value(data,"更新时间")`. -/
def get_market_fund_flow (api_key expected : String)
    (fetch : Fetched (List Series)) (market : String) : HandlerResult :=
  if api_key ≠ expected then
    ⟨Resp.httpError 403 "Invalid API Key", [], 0⟩
  else
    match fetch with
    | Fetched.exc msg =>
      ⟨Resp.httpError 500 "市场资金数据获取失败", [errlog_market msg], 1⟩
    | Fetched.ok df =>
      match (marketRows df (market_label market)).head? with
      | Option.none => ⟨Resp.httpError 404 (market_unavailable_detail market), [], 1⟩
      | some data =>
        ⟨Resp.marketOk
          ⟨market_label market,
           extract_field data "主力净流入-净额",
           extract_field data "散户净流入-净额",
           extract_field data "大单净流入-净额",
           extract_field data "小单净流入-净额",
           safe_float (safe_get_value data "主力净流入-净占比" PyVal.none) PyVal.none,
           pyOr (safe_get_value data "日期" PyVal.none)
             (safe_get_value data "更新时间" PyVal.none)⟩,
         [], 1⟩

/-- Model of `EXPECTED_API_KEY`, read via `os.getenv` with the weak default
(`src/main.py` line 13), over an abstract environment. -/
def EXPECTED_API_KEY (env : String → Option String) : String :=
  (env "FUND_API_KEY").getD "your-default-key-here"

/-- Body of the `GET /debug/env` response (`src/main.py` lines 188-192). -/
structure DebugEnvData where
  fund_api_key_value : String
  port_value : String
  status : String
deriving DecidableEq, Repr

/-- Handler of `GET /debug/env` (`src/main.py` lines 183-192).  It takes no
`api_key` parameter and performs no key comparison: its output depends only
on the environment. -/
def debug_environment (env : String → Option String) : DebugEnvData :=
  ⟨(env "FUND_API_KEY").getD "NOT_SET",
   (env "PORT").getD "NOT_SET",
   "Environment variables loaded successfully"⟩

/-- Result of the resilient fetch wrapper: the final outcome (success, or
the standardized unavailable-error as a status/message pair), the log of
failed attempts as (attempt index, error text), and how many attempts were
made. -/
structure RetryResult (α : Type) where
  result : Except (Nat × String) α
  failLog : List (Nat × String)
  attempts : Nat
deriving Repr

/-- Attempt loop of the retry wrapper: `i` is the current attempt index,
the second argument the number of retries still allowed after it. -/
def retryAux {α : Type} (op : Nat → Except String α) (i : Nat) : Nat → RetryResult α
  | 0 =>
    match op i with
    | Except.ok a => ⟨Except.ok a, [], 1⟩
    | Except.error e =>
      ⟨Except.error (503, "data source temporarily unavailable"), [(i, e)], 1⟩
  | n + 1 =>
    match op i with
    | Except.ok a => ⟨Except.ok a, [], 1⟩
    | Except.error e =>
      let r := retryAux op (i + 1) n
      ⟨r.result, (i, e) :: r.failLog, r.attempts + 1⟩

/-- Modelled from the spec: the Resilient Fetch Wrapper (spec section 4.1)
is absent from `src/main.py` (present only in other iterations of the
repository).  Given a zero-argument operation (modelled as a function of
the attempt index, so that per-attempt outcomes can be stated) and a
maximum retry count, invoke it; on failure log the attempt and retry, up to
`max_retries + 1` total attempts; if every attempt fails, fail with the
standardized 503 "upstream unavailable" error instead of the underlying
error; on success return immediately.  The fixed 1-second sleep is timing
and is not modelled. -/
def fetch_with_retry {α : Type} (op : Nat → Except String α) (max_retries : Nat) :
    RetryResult α :=
  retryAux op 0 max_retries

/-- Containment of `pat` in `s` as a contiguous substring. -/
def strContainsSub (s pat : String) : Bool :=
  (List.range (s.toList.length + 1)).any
    (fun i => ((s.toList.drop i).take pat.toList.length) == pat.toList)

/-- Modelled from the spec: the two-tier market-row resolution of spec
section 4.3, written to the spec's words for comparison with the code's
`get_market_fund_flow`.  First an exact match of the canonical label
against the category column; only when that yields zero rows, a substring
containment match with the market-specific pattern, taking the first
matching row; `Option.none` when both fail (NotFound). -/
def spec_resolve_market_row (df : List Series) (label pattern : String) :
    Option Series :=
  match (df.filter (fun r => r.entries.lookup "板块" == some (PyVal.str label))).head? with
  | some r => some r
  | Option.none =>
    (df.filter (fun r =>
      match r.entries.lookup "板块" with
      | some (PyVal.str s) => strContainsSub s pattern
      | _ => false)).head?

/-! Helper lemmas shared by the claim theorems. -/

/-- Every upper/lower-casing of a character list. -/
def casings : List Char → List (List Char)
  | [] => [[]]
  | c :: cs => (casings cs).flatMap (fun r => [c.toLower :: r, c.toUpper :: r])

/-- Every letter-casing of a string. -/
def caseVariants (s : String) : List String :=
  (casings s.toList).map String.mk

/-- The claimed sentinel tokens that do fail `float()` parsing: the dash,
the empty string, and every casing of "none" and "null". -/
def nonNanSentinels : List String :=
  ["-", ""] ++ caseVariants "none" ++ caseVariants "null"

/-- Every casing of the claimed sentinel token "nan"; CPython
`float()` parses each of these to NaN. -/
def nanVariants : List String :=
  caseVariants "nan"

theorem safe_float_default_of_parse_fail (s : String) (D : PyVal)
    (h1 : endswithPercent s = false) (h2 : pyParseFloat s = Option.none) :
    safe_float (PyVal.str s) D = D := by
  simp [safe_float, h1, h2]

theorem safe_float_percent_of_parse (s : String) (D : PyVal) (f : PyFloat)
    (h1 : endswithPercent s = true) (h2 : pyParseFloat (rstripPercent s) = some f) :
    safe_float (PyVal.str s) D = PyVal.float f := by
  simp [safe_float, h1, h2]

theorem safe_float_plain_of_parse (s : String) (D : PyVal) (f : PyFloat)
    (h1 : endswithPercent s = false) (h2 : pyParseFloat s = some f) :
    safe_float (PyVal.str s) D = PyVal.float f := by
  simp [safe_float, h1, h2]

theorem safe_get_value_lookup_str (series : Series) (key : String) (D : PyVal)
    (raw : String) (h1 : series.entries.lookup key = some (PyVal.str raw))
    (h2 : isSentinel (PyVal.str raw) = false) :
    safe_get_value series key D = PyVal.str (pyStrip raw) := by
  simp [safe_get_value, Series.get, h1, pdIsna, h2, pyStr]

theorem containsYi_ne_empty (s : String) (h : containsYi s = true) :
    (s == "") = false := by
  cases hs : s == "" with
  | false => rfl
  | true =>
    exfalso
    rw [show s = "" from by exact eq_of_beq hs] at h
    simp [containsYi] at h

/-! The claim theorems. -/

/-- C1 counterexample: the claim says every casing of "null" and "NaN" is
treated as absent by both normalizers with the default returned.  But
`safe_get_value` passes the string "null" through (its sentinel list is
only `["-", "", "None", None]`), and `safe_float("NaN")` succeeds —
CPython `float("NaN")` is NaN — so neither returns the default `None`. -/
theorem C1_sentinel_counterexample :
    safe_get_value ⟨[("k", PyVal.str "null")]⟩ "k" PyVal.none ≠ PyVal.none ∧
    safe_get_value ⟨[("k", PyVal.str "null")]⟩ "k" PyVal.none = PyVal.str "null" ∧
    safe_float (PyVal.str "NaN") PyVal.none ≠ PyVal.none ∧
    safe_float (PyVal.str "NaN") PyVal.none = PyVal.float PyFloat.nan := by
  refine ⟨by decide, by decide, by decide, by decide⟩

/-- C1 (amended): `safe_float` returns the supplied default for `None`, for
"-" and "", and for every casing of "none" and "null" (these all fail
`float()` parsing), but every casing of "nan" parses to float NaN and is
returned instead of the default; `safe_get_value` returns the supplied
default exactly for a `None`/NaN value and the exact tokens "-", "",
"None", while the string "null" is passed through trimmed, not defaulted. -/
theorem C1_sentinel_defaults :
    (∀ D : PyVal, safe_float PyVal.none D = D) ∧
    (∀ D : PyVal,
      nonNanSentinels.map (fun s => safe_float (PyVal.str s) D) =
        nonNanSentinels.map (fun _ => D)) ∧
    (∀ D : PyVal,
      nanVariants.map (fun s => safe_float (PyVal.str s) D) =
        nanVariants.map (fun _ => PyVal.float PyFloat.nan)) ∧
    (∀ (series : Series) (key : String) (D v : PyVal),
      series.entries.lookup key = some v → (pdIsna v || isSentinel v) = true →
      safe_get_value series key D = D) ∧
    (∀ (series : Series) (key : String) (D : PyVal),
      series.entries.lookup key = some (PyVal.str "null") →
      safe_get_value series key D = PyVal.str "null") := by
  refine ⟨fun D => rfl, fun D => rfl, fun D => rfl, ?_, ?_⟩
  · intro series key D v h1 h2
    simp [safe_get_value, Series.get, h1, h2]
  · intro series key D h1
    exact safe_get_value_lookup_str series key D "null" h1 (by decide)

/-- C1 witness: the amended sentinel clauses at concrete inputs. -/
theorem C1_sentinel_witness :
    safe_get_value ⟨[("k", PyVal.str "None")]⟩ "k" (PyVal.str "D") = PyVal.str "D" ∧
    safe_get_value ⟨[("j", PyVal.str "null")]⟩ "j" (PyVal.str "D") = PyVal.str "null" :=
  ⟨C1_sentinel_defaults.2.2.2.1 ⟨[("k", PyVal.str "None")]⟩ "k" (PyVal.str "D")
      (PyVal.str "None") rfl (by decide),
   C1_sentinel_defaults.2.2.2.2 ⟨[("j", PyVal.str "null")]⟩ "j" (PyVal.str "D") rfl⟩

/-- C2: the percent path of `safe_float` strips the trailing percent signs
and parses the remainder (generally, and at "12.5%" giving 12.5); plain
numerals parse directly ("7.0" gives 7.0); the 亿 path lives in
`extract_field`, which strips the marker and parses the remainder ("3.21亿"
gives 3.21); a failed parse ("abc", and generally whenever the selected
text does not parse) returns the supplied default. -/
theorem C2_number_parsing :
    safe_float (PyVal.str "12.5%") PyVal.none = PyVal.float (PyFloat.finite 12.5) ∧
    safe_float (PyVal.str "7.0") PyVal.none = PyVal.float (PyFloat.finite 7) ∧
    extract_field ⟨[("f", PyVal.str "3.21亿")]⟩ "f" =
      PyVal.float (PyFloat.finite 3.21) ∧
    (∀ D : PyVal, safe_float (PyVal.str "abc") D = D) ∧
    (∀ (s : String) (D : PyVal) (f : PyFloat), endswithPercent s = true →
      pyParseFloat (rstripPercent s) = some f →
      safe_float (PyVal.str s) D = PyVal.float f) ∧
    (∀ (data : Series) (name s : String) (f : PyFloat),
      safe_get_value data name PyVal.none = PyVal.str s → containsYi s = true →
      pyParseFloat (replace_yi s) = some f →
      extract_field data name = PyVal.float f) ∧
    (∀ (s : String) (D : PyVal),
      (if endswithPercent s then pyParseFloat (rstripPercent s)
        else pyParseFloat s) = Option.none →
      safe_float (PyVal.str s) D = D) := by
  refine ⟨?_, by decide, ?_, fun D => rfl, ?_, ?_, ?_⟩
  · rw [show (12.5 : ℚ) = mkRat 25 2 from by rw [Rat.mkRat_eq_div]; norm_num]
    decide
  · rw [show (3.21 : ℚ) = mkRat 321 100 from by rw [Rat.mkRat_eq_div]; norm_num]
    decide
  · exact safe_float_percent_of_parse
  · intro data name s f h1 h2 h3
    simp [extract_field, h1, containsYi_ne_empty s h2, h2, h3]
  · intro s D h
    cases hc : endswithPercent s with
    | true => rw [hc] at h; simp at h; simp [safe_float, hc, h]
    | false => rw [hc] at h; simp at h; simp [safe_float, hc, h]

/-- C2 witness: the universally-quantified clauses at concrete inputs. -/
theorem C2_number_parsing_witness :
    safe_float (PyVal.str "0.49%") PyVal.none =
      PyVal.float (PyFloat.finite (mkRat 49 100)) ∧
    safe_float (PyVal.str "x5") (PyVal.float (PyFloat.finite 0)) =
      PyVal.float (PyFloat.finite 0) ∧
    extract_field ⟨[("g", PyVal.str "1.5亿")]⟩ "g" =
      PyVal.float (PyFloat.finite (mkRat 3 2)) :=
  ⟨C2_number_parsing.2.2.2.2.1 "0.49%" PyVal.none (PyFloat.finite (mkRat 49 100))
      (by decide) (by decide),
   C2_number_parsing.2.2.2.2.2.2 "x5" (PyVal.float (PyFloat.finite 0)) (by decide),
   C2_number_parsing.2.2.2.2.2.1 ⟨[("g", PyVal.str "1.5亿")]⟩ "g" "1.5亿"
      (PyFloat.finite (mkRat 3 2)) (by decide) (by decide) (by decide)⟩

/-- C3 counterexample: with a float-parseable string default, re-normalizing
is not idempotent — `safe_float("abc", "7")` is the string "7", which the
second pass parses into the float 7.0, a different value (and Python `==`
between 7.0 and "7" is false as well). -/
theorem C3_idempotence_counterexample :
    safe_float (safe_float (PyVal.str "abc") (PyVal.str "7")) (PyVal.str "7") ≠
      safe_float (PyVal.str "abc") (PyVal.str "7") ∧
    safe_float (safe_float (PyVal.str "abc") (PyVal.str "7")) (PyVal.str "7") =
      PyVal.float (PyFloat.finite 7) ∧
    safe_float (PyVal.str "abc") (PyVal.str "7") = PyVal.str "7" := by
  refine ⟨by decide, by decide, by decide⟩

/-- C3 (amended): with the default left at `None` — the only default the
handlers pass for NAV and ratio fields — `safe_float` is idempotent as a
value-level fixpoint: re-normalizing an already-normalized value yields the
identical value, for every input. -/
theorem C3_idempotent_none_default (x : PyVal) :
    safe_float (safe_float x PyVal.none) PyVal.none = safe_float x PyVal.none := by
  cases x with
  | none => rfl
  | float f => rfl
  | str s =>
    simp only [safe_float]
    cases hc : endswithPercent s with
    | true =>
      cases hp : pyParseFloat (rstripPercent s) with
      | none => simp [hp]
      | some f => simp [hp]
    | false =>
      cases hp : pyParseFloat s with
      | none => simp [hp]
      | some f => simp [hp]

/-- C4 (spec-modelled): an operation failing on the first two attempts and
succeeding on the third, run with `max_retries = 2`, returns the success
value with exactly the two failures logged; an always-failing operation is
attempted exactly 3 times and then fails with the standardized 503
"data source temporarily unavailable" error, not the underlying error. -/
theorem C4_retry_wrapper :
    (∀ (α : Type) (op : Nat → Except String α) (e0 e1 : String) (v : α),
      op 0 = Except.error e0 → op 1 = Except.error e1 → op 2 = Except.ok v →
      fetch_with_retry op 2 = ⟨Except.ok v, [(0, e0), (1, e1)], 3⟩) ∧
    (∀ (α : Type) (op : Nat → Except String α) (errf : Nat → String),
      (∀ i, op i = Except.error (errf i)) →
      fetch_with_retry op 2 =
        ⟨Except.error (503, "data source temporarily unavailable"),
         [(0, errf 0), (1, errf 1), (2, errf 2)], 3⟩) := by
  constructor
  · intro α op e0 e1 v h0 h1 h2
    simp [fetch_with_retry, retryAux, h0, h1, h2]
  · intro α op errf h
    simp [fetch_with_retry, retryAux, h 0, h 1, h 2]

/-- C4 witness: the retry wrapper at two concrete operations. -/
theorem C4_retry_wrapper_witness :
    fetch_with_retry (fun i => if i < 2 then Except.error "boom" else Except.ok 7) 2 =
      ⟨Except.ok 7, [(0, "boom"), (1, "boom")], 3⟩ ∧
    fetch_with_retry (fun _ : Nat => (Except.error "down" : Except String Nat)) 2 =
      ⟨Except.error (503, "data source temporarily unavailable"),
       [(0, "down"), (1, "down"), (2, "down")], 3⟩ :=
  ⟨C4_retry_wrapper.1 Nat (fun i => if i < 2 then Except.error "boom" else Except.ok 7)
      "boom" "boom" 7 rfl rfl rfl,
   C4_retry_wrapper.2 Nat (fun _ => Except.error "down") (fun _ => "down")
      (fun _ => rfl)⟩

/-- C5 counterexample: on a table whose category cell reads 沪市主板 —
no exact match for the canonical label 沪市, but a substring match — the
handler answers 404, while the claimed two-tier resolution (modelled from
the spec as `spec_resolve_market_row`) would find the row: the code has no
fuzzy fallback tier. -/
theorem C5_market_resolution_counterexample :
    marketRows [⟨[("板块", PyVal.str "沪市主板")]⟩] "沪市" = [] ∧
    (get_market_fund_flow "k" "k" (Fetched.ok [⟨[("板块", PyVal.str "沪市主板")]⟩])
        "sh").resp = Resp.httpError 404 "沪市数据暂不可用" ∧
    spec_resolve_market_row [⟨[("板块", PyVal.str "沪市主板")]⟩] "沪市" "沪市" =
      some ⟨[("板块", PyVal.str "沪市主板")]⟩ := by
  refine ⟨by decide, by decide, by decide⟩

/-- C5 (amended): market-row resolution is exact-only.  With a valid key
and a fetched table whose rows carry the 板块 column, the first row whose
板块 cell exactly equals the canonical label is used to build the 200
response; when no row matches exactly, the handler fails with 404 — no
substring/pattern fallback is attempted. -/
theorem C5_exact_match_only (key : String) (df : List Series) (market : String)
    (_hcol : ∀ r ∈ df, (r.entries.map Prod.fst).contains "板块" = true) :
    (marketRows df (market_label market) = [] →
      get_market_fund_flow key key (Fetched.ok df) market =
        ⟨Resp.httpError 404 (market_unavailable_detail market), [], 1⟩) ∧
    (∀ (r : Series) (rest : List Series),
      marketRows df (market_label market) = r :: rest →
      get_market_fund_flow key key (Fetched.ok df) market =
        ⟨Resp.marketOk ⟨market_label market,
            extract_field r "主力净流入-净额",
            extract_field r "散户净流入-净额",
            extract_field r "大单净流入-净额",
            extract_field r "小单净流入-净额",
            safe_float (safe_get_value r "主力净流入-净占比" PyVal.none) PyVal.none,
            pyOr (safe_get_value r "日期" PyVal.none)
              (safe_get_value r "更新时间" PyVal.none)⟩,
          [], 1⟩) := by
  constructor
  · intro h
    simp [get_market_fund_flow, h]
  · intro r rest h
    simp [get_market_fund_flow, h]

/-- C5 witness: the amended resolution at a one-row table with an exact
match and at an empty table. -/
theorem C5_exact_match_only_witness :
    get_market_fund_flow "k" "k" (Fetched.ok [⟨[("板块", PyVal.str "沪市")]⟩]) "sh" =
      ⟨Resp.marketOk ⟨market_label "sh",
          extract_field ⟨[("板块", PyVal.str "沪市")]⟩ "主力净流入-净额",
          extract_field ⟨[("板块", PyVal.str "沪市")]⟩ "散户净流入-净额",
          extract_field ⟨[("板块", PyVal.str "沪市")]⟩ "大单净流入-净额",
          extract_field ⟨[("板块", PyVal.str "沪市")]⟩ "小单净流入-净额",
          safe_float (safe_get_value ⟨[("板块", PyVal.str "沪市")]⟩
            "主力净流入-净占比" PyVal.none) PyVal.none,
          pyOr (safe_get_value ⟨[("板块", PyVal.str "沪市")]⟩ "日期" PyVal.none)
            (safe_get_value ⟨[("板块", PyVal.str "沪市")]⟩ "更新时间" PyVal.none)⟩,
        [], 1⟩ ∧
    get_market_fund_flow "k" "k" (Fetched.ok []) "sz" =
      ⟨Resp.httpError 404 (market_unavailable_detail "sz"), [], 1⟩ :=
  ⟨(C5_exact_match_only "k" [⟨[("板块", PyVal.str "沪市")]⟩] "sh" (by decide)).2
      ⟨[("板块", PyVal.str "沪市")]⟩ [] (by decide),
   (C5_exact_match_only "k" [] "sz" (by decide)).1 (by decide)⟩

/-- C6: with a mismatched API key, both handlers answer 403
"Invalid API Key" with zero upstream calls (the check precedes the `try`
block) and an empty log; the result is the same for every possible
upstream outcome, so the failure is never retried. -/
theorem C6_auth_403 (fund_code api_key expected market : String)
    (fetch : Fetched (List Series)) (h : api_key ≠ expected) :
    get_single_fund fund_code api_key expected fetch =
      ⟨Resp.httpError 403 "Invalid API Key", [], 0⟩ ∧
    get_market_fund_flow api_key expected fetch market =
      ⟨Resp.httpError 403 "Invalid API Key", [], 0⟩ := by
  constructor
  · simp [get_single_fund, h]
  · simp [get_market_fund_flow, h]

/-- C6 witness: a concrete mismatched key against both handlers. -/
theorem C6_auth_403_witness :
    get_single_fund "005827" "bad" "good" (Fetched.ok []) =
      ⟨Resp.httpError 403 "Invalid API Key", [], 0⟩ ∧
    get_market_fund_flow "bad" "good" (Fetched.ok []) "sh" =
      ⟨Resp.httpError 403 "Invalid API Key", [], 0⟩ :=
  C6_auth_403 "005827" "bad" "good" "sh" (Fetched.ok []) (by decide)

/-- C7: a non-HTTP exception raised in either handler body yields a 500
response whose detail is the handler's fixed generic message — the same
constant for every exception text, so the text never reaches the caller —
while the text is logged server-side with the handler's context. -/
theorem C7_generic_500 (fund_code key market msg : String) :
    get_single_fund fund_code key key (Fetched.exc msg) =
      ⟨Resp.httpError 500 "数据查询失败，请稍后再试", [errlog_fund fund_code msg], 1⟩ ∧
    get_market_fund_flow key key (Fetched.exc msg) market =
      ⟨Resp.httpError 500 "市场资金数据获取失败", [errlog_market msg], 1⟩ := by
  constructor
  · simp [get_single_fund]
  · simp [get_market_fund_flow]

/-- C8: with a valid key, an empty upstream table yields 404, and a
nonempty table whose first (latest) row has no parseable 单位净值 also
yields 404 — neither case returns 200 or 500. -/
theorem C8_fund_404 (fund_code key : String) :
    get_single_fund fund_code key key (Fetched.ok []) =
      ⟨Resp.httpError 404 "基金代码不存在或暂无数据", [], 1⟩ ∧
    (∀ (latest : Series) (rest : List Series),
      safe_float (safe_get_value latest "单位净值" PyVal.none) PyVal.none = PyVal.none →
      get_single_fund fund_code key key (Fetched.ok (latest :: rest)) =
        ⟨Resp.httpError 404 "暂无净值数据", [], 1⟩) := by
  constructor
  · simp [get_single_fund]
  · intro latest rest h
    simp [get_single_fund, h]

/-- C8 witness: a row whose 单位净值 cell is the sentinel "-" has no
parseable NAV, so the handler answers 404. -/
theorem C8_fund_404_witness :
    get_single_fund "005827" "k" "k"
        (Fetched.ok [⟨[("单位净值", PyVal.str "-")]⟩]) =
      ⟨Resp.httpError 404 "暂无净值数据", [], 1⟩ :=
  (C8_fund_404 "005827" "k").2 ⟨[("单位净值", PyVal.str "-")]⟩ [] (by decide)

/-- C9: for a string-valued raw cell that `safe_get_value` passes through,
`extract_field` — which builds the four net-inflow response fields —
returns the trimmed string (not a float) whenever the value does not
contain the 亿 marker, and returns the original (trimmed) string rather
than any default when a 亿-marked value fails to parse. -/
theorem C9_market_field_strings (data : Series) (name raw : String)
    (h1 : data.entries.lookup name = some (PyVal.str raw))
    (h2 : isSentinel (PyVal.str raw) = false) :
    (containsYi (pyStrip raw) = false →
      extract_field data name = PyVal.str (pyStrip raw)) ∧
    (containsYi (pyStrip raw) = true →
      pyParseFloat (replace_yi (pyStrip raw)) = Option.none →
      extract_field data name = PyVal.str (pyStrip raw)) := by
  have hval : safe_get_value data name PyVal.none = PyVal.str (pyStrip raw) :=
    safe_get_value_lookup_str data name PyVal.none raw h1 h2
  constructor
  · intro hy
    simp [extract_field, hval, hy]
  · intro hy hp
    simp [extract_field, hval, containsYi_ne_empty _ hy, hy, hp]

/-- C9 witness: a percent-style cell comes back as a trimmed string, and an
unparseable 亿-marked cell comes back unchanged. -/
theorem C9_market_field_strings_witness :
    extract_field ⟨[("主力净流入-净额", PyVal.str " -12.3% ")]⟩ "主力净流入-净额" =
      PyVal.str "-12.3%" ∧
    extract_field ⟨[("散户净流入-净额", PyVal.str "约1.2亿元")]⟩ "散户净流入-净额" =
      PyVal.str "约1.2亿元" :=
  ⟨(C9_market_field_strings ⟨[("主力净流入-净额", PyVal.str " -12.3% ")]⟩
      "主力净流入-净额" " -12.3% " rfl (by decide)).1 (by decide),
   (C9_market_field_strings ⟨[("散户净流入-净额", PyVal.str "约1.2亿元")]⟩
      "散户净流入-净额" "约1.2亿元" rfl (by decide)).2 (by decide) (by decide)⟩

/-- C10: `/debug/env` reports the configured FUND_API_KEY environment value
— the very string the other handlers compare keys against — or the literal
"NOT_SET" when the variable is unset; the handler takes no `api_key`
parameter and performs no key check (its output depends only on the
environment). -/
theorem C10_debug_env :
    (∀ (env : String → Option String) (v : String), env "FUND_API_KEY" = some v →
      debug_environment env =
        ⟨v, (env "PORT").getD "NOT_SET", "Environment variables loaded successfully"⟩ ∧
      (debug_environment env).fund_api_key_value = EXPECTED_API_KEY env) ∧
    (∀ env : String → Option String, env "FUND_API_KEY" = Option.none →
      (debug_environment env).fund_api_key_value = "NOT_SET") := by
  constructor
  · intro env v h
    constructor
    · simp [debug_environment, h]
    · simp [debug_environment, EXPECTED_API_KEY, h]
  · intro env h
    simp [debug_environment, h]

/-- C10 witness: a configured environment leaks its key; an empty
environment reports "NOT_SET". -/
theorem C10_debug_env_witness :
    debug_environment (fun k => if k == "FUND_API_KEY" then some "secret" else Option.none) =
      ⟨"secret", "NOT_SET", "Environment variables loaded successfully"⟩ ∧
    (debug_environment (fun _ => Option.none)).fund_api_key_value = "NOT_SET" :=
  ⟨((C10_debug_env.1 (fun k => if k == "FUND_API_KEY" then some "secret" else Option.none)
      "secret" rfl).1 : _),
   C10_debug_env.2 (fun _ => Option.none) rfl⟩

end FundApi
